import Mathlib

/-!
Shallow embedding of the Calamares module factory and configuration resolver
(`src/libcalamaresui/modulesystem/Module.cpp`): `Module::fromDescriptor`,
`Module::initFrom` and `Module::loadConfigurationFile`, together with the
ambient state they consult (filesystem, application-data directory override,
debug mode, compile-time backend flags).
-/

namespace Calamares

/-- QVariant-like values, as they occur in module descriptors and in the
configuration maps produced by `CalamaresUtils::yamlMapToVariant`. -/
inductive Value where
  | nullV : Value
  | boolV : Bool → Value
  | intV : Int → Value
  | stringV : String → Value
  | listV : List Value → Value
  | mapV : List (String × Value) → Value

/-- `QVariant::toString`: strings convert to themselves, booleans to
`"true"`/`"false"`, integers to their decimal form; null, lists and maps are
not convertible and give the empty string. -/
def Value.toString : Value → String
  | .stringV s => s
  | .boolV b => if b then "true" else "false"
  | .intV n => ToString.toString n
  | _ => ""

/-- `QVariant::toBool`: a Bool converts to itself, an integer is truthy when
non-zero, a string is truthy unless its lower-case content is empty, `"0"` or
`"false"`; null, lists and maps convert to `false`. -/
def Value.toBool : Value → Bool
  | .boolV b => b
  | .intV n => n != 0
  | .stringV s => !(s.isEmpty || s.toLower == "0" || s.toLower == "false")
  | _ => false

/-- `QVariantMap::value(key)`: the stored value, or a null `QVariant` when the
key is absent. -/
def mapValue (m : List (String × Value)) (k : String) : Value :=
  (m.lookup k).getD .nullV

/-- `QVariantMap::contains(key)`. -/
def mapContains (m : List (String × Value)) (k : String) : Bool :=
  (m.lookup k).isSome

/-- The concrete subclass allocated by `Module::fromDescriptor`
(lines 84, 89, 101, 105, 110 of Module.cpp). -/
inductive ModuleVariant where
  | viewModule
  | pythonQtViewModule
  | cppJobModule
  | processJobModule
  | pythonJobModule
deriving DecidableEq

/-- Compile-time configuration: whether the optional scripting backends
(`WITH_PYTHON`, `WITH_PYTHONQT`) are compiled in. -/
structure BuildConfig where
  withPython : Bool
  withPythonQt : Bool

/-- Result of `YAML::Load` on the bytes of a winning candidate file, as far as
`loadConfigurationFile` inspects it: null document, a non-map document
(list or scalar), or a map (already converted by
`CalamaresUtils::yamlMapToVariant(...).toMap()`). -/
inductive YamlDoc where
  | nullDoc : YamlDoc
  | nonMapDoc : YamlDoc
  | mapDoc : List (String × Value) → YamlDoc

/-- What `loadConfigurationFile` observes about a candidate path: the file does
not exist (`QFile::exists()` false), it exists but cannot be opened for
reading, or it exists, opens, and its whole content parses to
`.ok doc` — or makes `YAML::Load` throw, `.error msg` carrying the
exception's message. -/
inductive FileStatus where
  | absent : FileStatus
  | unreadable : FileStatus
  | readable : Except String YamlDoc → FileStatus

/-- The ambient state consulted by Module.cpp: `CalamaresUtils`'s app-data
directory (and whether it is overridden), `Settings::debugMode`,
`QDir::currentPath`, the filesystem as seen through `QFile`, and directory
checks as seen through `QDir`. `QDir::absoluteFilePath` of a relative path is
modelled as path concatenation with `/`. -/
structure Env where
  appDataDirOverridden : Bool
  appDataDirPath : String
  debugMode : Bool
  currentPath : String
  file : String → FileStatus
  dirExists : String → Bool
  dirReadable : String → Bool
  dirAbsolutePath : String → String

/-- The fields of a `Calamares::Module` instance touched by the embedded code.
Modelled from the spec: Module.h is not part of the sources, so the
default-member initialisation is taken from the spec's data model (§3) — a
fresh instance has no name, empty configuration map, `maybeEmergency` and
`emergency` false; the constructor at Module.cpp line 289 sets
`m_loaded` to false. -/
structure Module where
  variant : ModuleVariant
  m_name : String := ""
  m_instanceId : String := ""
  m_directory : String := ""
  m_configurationMap : List (String × Value) := []
  m_maybe_emergency : Bool := false
  m_emergency : Bool := false
  m_loaded : Bool := false

/-- A freshly allocated variant instance (`new ViewModule()`, ...). -/
def newModule (v : ModuleVariant) : Module := { variant := v }

/-- `Module::initFrom` (Module.cpp lines 294-303): copy `name`; if the
descriptor holds the reserved `emergency` key, record its truthiness as
`m_maybe_emergency`. -/
def initFrom (m : Module) (moduleDescriptor : List (String × Value)) : Module :=
  let m1 := { m with m_name := (mapValue moduleDescriptor "name").toString }
  if mapContains moduleDescriptor "emergency" then
    { m1 with m_maybe_emergency := (mapValue moduleDescriptor "emergency").toBool }
  else
    m1

/-- The variant-selection ladder of `Module::fromDescriptor`
(Module.cpp lines 80-119), with the `#ifdef WITH_PYTHON` / `WITH_PYTHONQT`
arms resolved by the compile-time flags; `none` when no `m.reset(...)` ran. -/
def selectVariant (cfg : BuildConfig) (typeString intfString : String) :
    Option ModuleVariant :=
  if typeString = "view" ∨ typeString = "viewmodule" then
    if intfString = "qtplugin" then some .viewModule
    else if intfString = "pythonqt" then
      if cfg.withPythonQt then some .pythonQtViewModule else none
    else none
  else if typeString = "job" then
    if intfString = "qtplugin" then some .cppJobModule
    else if intfString = "process" then some .processJobModule
    else if intfString = "python" then
      if cfg.withPython then some .pythonJobModule else none
    else none
  else none

/-- The ordered candidate list built by `Module::loadConfigurationFile`
(Module.cpp lines 157-180). -/
def configFilesByPriority (env : Env) (name configFileName : String) :
    List String :=
  if env.appDataDirOverridden then
    [env.appDataDirPath ++ "/modules/" ++ configFileName]
  else
    (if env.debugMode then
      [env.currentPath ++ "/src/modules/" ++ name ++ "/" ++ configFileName]
    else []) ++
    ["/etc/calamares/modules/" ++ configFileName,
     env.appDataDirPath ++ "/modules/" ++ configFileName]

/-- The `foreach` loop of `Module::loadConfigurationFile`
(Module.cpp lines 182-210), acting on an explicit module state. The result is
`.error msg` when `YAML::Load` throws (the exception propagates out of the
function), otherwise `.ok` with the updated module state and the list of
warnings logged by `cWarning()`. -/
def loadFromPaths (env : Env) (m : Module) :
    List String → Except String (Module × List String)
  | [] => .ok (m, [])
  | path :: rest =>
    match env.file path with
    | .absent => loadFromPaths env m rest
    | .unreadable => loadFromPaths env m rest
    | .readable parsed =>
      match parsed with
      | .error e => .error e
      | .ok .nullDoc => .ok (m, [])
      | .ok .nonMapDoc => .ok (m, ["Bad module configuration format " ++ path])
      | .ok (.mapDoc doc) =>
        .ok ({ m with
                m_configurationMap := doc,
                m_emergency := m.m_maybe_emergency
                  && mapContains doc "emergency"
                  && (mapValue doc "emergency").toBool }, [])

/-- `Module::loadConfigurationFile` (Module.cpp lines 154-211). -/
def loadConfigurationFile (env : Env) (m : Module) (configFileName : String) :
    Except String (Module × List String) :=
  loadFromPaths env m (configFilesByPriority env m.m_name configFileName)

/-- The failure outcomes of `Module::fromDescriptor` (each `return nullptr`
site, labelled with the error it logs): bad descriptor format (line 77), bad
type/interface (line 126), bad module directory (line 135), YAML parser
error (line 148). -/
inductive BuildError where
  | invalidDescriptor : String → BuildError
  | invalidModule : String → String → String → BuildError
  | invalidDirectory : String → String → BuildError
  | yamlError : String → BuildError

/-- `Module::fromDescriptor` (Module.cpp lines 63-151). -/
def fromDescriptor (cfg : BuildConfig) (env : Env)
    (moduleDescriptor : List (String × Value))
    (instanceId configFileName moduleDirectory : String) :
    Except BuildError Module :=
  let typeString := (mapValue moduleDescriptor "type").toString
  let intfString := (mapValue moduleDescriptor "interface").toString
  if typeString = "" ∨ intfString = "" then
    .error (.invalidDescriptor instanceId)
  else
    match selectVariant cfg typeString intfString with
    | none => .error (.invalidModule typeString intfString instanceId)
    | some v =>
      if env.dirExists moduleDirectory && env.dirReadable moduleDirectory then
        let m1 := { newModule v with
                    m_directory := env.dirAbsolutePath moduleDirectory,
                    m_instanceId := instanceId }
        let m2 := initFrom m1 moduleDescriptor
        match loadConfigurationFile env m2 configFileName with
        | .error e => .error (.yamlError e)
        | .ok (m3, _) => .ok m3
      else
        .error (.invalidDirectory moduleDirectory instanceId)

/-- The first candidate path that exists and opens readably, with its parse
result; `none` when no candidate does. -/
def firstHit (env : Env) : List String → Option (String × Except String YamlDoc)
  | [] => none
  | path :: rest =>
    match env.file path with
    | .absent => firstHit env rest
    | .unreadable => firstHit env rest
    | .readable parsed => some (path, parsed)

/-- Spec-side restatement of the resolution algorithm (§4.2): the outcome is
fully determined by the first existing readable candidate — parse error is a
hard failure, a null document leaves the module untouched, a non-map document
leaves it untouched with a warning, a map document installs the configuration
map and derives the emergency flag; no candidate at all leaves the module
untouched. -/
def resolveWinner (m : Module) :
    Option (String × Except String YamlDoc) → Except String (Module × List String)
  | none => .ok (m, [])
  | some (_, .error e) => .error e
  | some (_, .ok .nullDoc) => .ok (m, [])
  | some (path, .ok .nonMapDoc) =>
      .ok (m, ["Bad module configuration format " ++ path])
  | some (_, .ok (.mapDoc doc)) =>
      .ok ({ m with
              m_configurationMap := doc,
              m_emergency := m.m_maybe_emergency
                && mapContains doc "emergency"
                && (mapValue doc "emergency").toBool }, [])

/-- Spec-side variant table (§4.1, amended with the PythonQt view row present
in the code), as a flat exact-match lookup, for refinement comparison with
`selectVariant`. -/
def specVariantTable (cfg : BuildConfig) (ty intf : String) :
    Option ModuleVariant :=
  if (ty = "view" ∨ ty = "viewmodule") ∧ intf = "qtplugin" then
    some .viewModule
  else if (ty = "view" ∨ ty = "viewmodule") ∧ intf = "pythonqt" ∧ cfg.withPythonQt = true then
    some .pythonQtViewModule
  else if ty = "job" ∧ intf = "qtplugin" then
    some .cppJobModule
  else if ty = "job" ∧ intf = "process" then
    some .processJobModule
  else if ty = "job" ∧ intf = "python" ∧ cfg.withPython = true then
    some .pythonJobModule
  else
    none

/-- `s` has `t` as a (contiguous) substring. -/
def strContains (s t : String) : Bool :=
  (List.range (s.data.length + 1)).any fun i => t.data.isPrefixOf (s.data.drop i)

/-! ### Helper lemmas -/

theorem mapContains_nil (k : String) : mapContains [] k = false := rfl

theorem initFrom_m_name (m : Module) (d : List (String × Value)) :
    (initFrom m d).m_name = (mapValue d "name").toString := by
  unfold initFrom
  split <;> rfl

theorem initFrom_m_configurationMap (m : Module) (d : List (String × Value)) :
    (initFrom m d).m_configurationMap = m.m_configurationMap := by
  unfold initFrom
  split <;> rfl

theorem initFrom_m_emergency (m : Module) (d : List (String × Value)) :
    (initFrom m d).m_emergency = m.m_emergency := by
  unfold initFrom
  split <;> rfl

theorem initFrom_m_directory (m : Module) (d : List (String × Value)) :
    (initFrom m d).m_directory = m.m_directory := by
  unfold initFrom
  split <;> rfl

theorem initFrom_variant (m : Module) (d : List (String × Value)) :
    (initFrom m d).variant = m.variant := by
  unfold initFrom
  split <;> rfl

theorem initFrom_m_maybe_emergency (m : Module) (d : List (String × Value))
    (h : m.m_maybe_emergency = false) :
    (initFrom m d).m_maybe_emergency
      = (mapContains d "emergency" && (mapValue d "emergency").toBool) := by
  unfold initFrom
  split
  · next hc => simp [hc]
  · next hc => simp at hc; simp [hc, h]

/-- The resolution loop is fully determined by the first existing readable
candidate. -/
theorem loadFromPaths_eq_resolveWinner (env : Env) (m : Module) :
    ∀ ps : List String, loadFromPaths env m ps = resolveWinner m (firstHit env ps)
  | [] => rfl
  | path :: rest => by
    unfold loadFromPaths firstHit
    cases h : env.file path with
    | absent => exact loadFromPaths_eq_resolveWinner env m rest
    | unreadable => exact loadFromPaths_eq_resolveWinner env m rest
    | readable parsed =>
      cases parsed with
      | error e => rfl
      | ok doc => cases doc <;> rfl

/-- Fields that the resolution loop never touches. -/
theorem loadFromPaths_frame (env : Env) :
    ∀ (ps : List String) (m m' : Module) (w : List String),
      loadFromPaths env m ps = .ok (m', w) →
      m'.variant = m.variant ∧ m'.m_name = m.m_name ∧
      m'.m_instanceId = m.m_instanceId ∧ m'.m_directory = m.m_directory ∧
      m'.m_maybe_emergency = m.m_maybe_emergency
  | [], m, m', w, h => by
    simp [loadFromPaths] at h
    obtain ⟨rfl, rfl⟩ := h
    exact ⟨rfl, rfl, rfl, rfl, rfl⟩
  | path :: rest, m, m', w, h => by
    unfold loadFromPaths at h
    cases hf : env.file path with
    | absent => rw [hf] at h; exact loadFromPaths_frame env rest m m' w h
    | unreadable => rw [hf] at h; exact loadFromPaths_frame env rest m m' w h
    | readable parsed =>
      rw [hf] at h
      cases parsed with
      | error e => simp at h
      | ok doc =>
        cases doc with
        | nullDoc =>
          simp at h
          obtain ⟨rfl, rfl⟩ := h
          exact ⟨rfl, rfl, rfl, rfl, rfl⟩
        | nonMapDoc =>
          simp at h
          obtain ⟨rfl, rfl⟩ := h
          exact ⟨rfl, rfl, rfl, rfl, rfl⟩
        | mapDoc doc =>
          simp at h
          obtain ⟨rfl, rfl⟩ := h
          exact ⟨rfl, rfl, rfl, rfl, rfl⟩

/-- The emergency-derivation invariant is preserved by the resolution loop. -/
theorem loadFromPaths_emergencyInv (env : Env) :
    ∀ (ps : List String) (m m' : Module) (w : List String),
      loadFromPaths env m ps = .ok (m', w) →
      m.m_emergency = (m.m_maybe_emergency
        && mapContains m.m_configurationMap "emergency"
        && (mapValue m.m_configurationMap "emergency").toBool) →
      m'.m_emergency = (m'.m_maybe_emergency
        && mapContains m'.m_configurationMap "emergency"
        && (mapValue m'.m_configurationMap "emergency").toBool)
  | [], m, m', w, h, h0 => by
    simp [loadFromPaths] at h
    obtain ⟨rfl, rfl⟩ := h
    exact h0
  | path :: rest, m, m', w, h, h0 => by
    unfold loadFromPaths at h
    cases hf : env.file path with
    | absent => rw [hf] at h; exact loadFromPaths_emergencyInv env rest m m' w h h0
    | unreadable => rw [hf] at h; exact loadFromPaths_emergencyInv env rest m m' w h h0
    | readable parsed =>
      rw [hf] at h
      cases parsed with
      | error e => simp at h
      | ok doc =>
        cases doc with
        | nullDoc =>
          simp at h
          obtain ⟨rfl, rfl⟩ := h
          exact h0
        | nonMapDoc =>
          simp at h
          obtain ⟨rfl, rfl⟩ := h
          exact h0
        | mapDoc doc =>
          simp at h
          obtain ⟨rfl, rfl⟩ := h
          rfl

/-- Unfolding of `fromDescriptor` once the descriptor, variant and directory
checks pass. -/
theorem fromDescriptor_steps (cfg : BuildConfig) (env : Env)
    (d : List (String × Value)) (iid cf md : String) (v : ModuleVariant)
    (hty : (mapValue d "type").toString ≠ "")
    (hintf : (mapValue d "interface").toString ≠ "")
    (hsel : selectVariant cfg ((mapValue d "type").toString)
              ((mapValue d "interface").toString) = some v)
    (hdir : (env.dirExists md && env.dirReadable md) = true) :
    fromDescriptor cfg env d iid cf md =
      match loadConfigurationFile env
          (initFrom { newModule v with
                      m_directory := env.dirAbsolutePath md,
                      m_instanceId := iid } d) cf with
      | .error e => .error (.yamlError e)
      | .ok (m3, _) => .ok m3 := by
  simp only [fromDescriptor, hsel, hdir]
  rw [if_neg (by simp [hty, hintf])]
  simp

/-- Decomposition of a successful `fromDescriptor` run. -/
theorem fromDescriptor_ok_elim (cfg : BuildConfig) (env : Env)
    (d : List (String × Value)) (iid cf md : String) (m : Module)
    (h : fromDescriptor cfg env d iid cf md = .ok m) :
    (env.dirExists md && env.dirReadable md) = true ∧
    ∃ (v : ModuleVariant) (w : List String),
      selectVariant cfg ((mapValue d "type").toString)
        ((mapValue d "interface").toString) = some v ∧
      loadConfigurationFile env
        (initFrom { newModule v with
                    m_directory := env.dirAbsolutePath md,
                    m_instanceId := iid } d) cf = .ok (m, w) := by
  simp only [fromDescriptor] at h
  split at h
  · exact absurd h (by simp)
  · split at h
    · exact absurd h (by simp)
    · next v hsel =>
      split at h
      · next hdir =>
        split at h
        · exact absurd h (by simp)
        · next m3 w hload =>
          simp at h
          subst h
          exact ⟨hdir, v, w, hsel, hload⟩
      · exact absurd h (by simp)

/-! ### Witness fixtures: concrete environments, descriptors and modules -/

/-- A module instance as freshly allocated. -/
def mA : Module := { variant := .viewModule }

/-- No override, debug off, no config file anywhere, every directory exists,
is readable and is already absolute. -/
def envNoFiles : Env :=
  { appDataDirOverridden := false, appDataDirPath := "/usr/share/calamares",
    debugMode := false, currentPath := "/cwd",
    file := fun _ => .absent,
    dirExists := fun _ => true, dirReadable := fun _ => true,
    dirAbsolutePath := fun p => p }

/-- Override root active and debug mode on at the same time. -/
def envOverride : Env :=
  { envNoFiles with appDataDirOverridden := true, debugMode := true }

/-- No directory exists. -/
def envNoDir : Env := { envNoFiles with dirExists := fun _ => false }

/-- A config file confirming emergency sits at the administrator path. -/
def envEmg : Env :=
  { envNoFiles with
    file := fun q =>
      if q = "/etc/calamares/modules/f.conf" then
        .readable (.ok (.mapDoc [("emergency", .boolV true)]))
      else .absent }

/-- The administrator path holds a document whose top level is not a map. -/
def envNonMap : Env :=
  { envNoFiles with
    file := fun q =>
      if q = "/etc/calamares/modules/n.conf" then .readable (.ok .nonMapDoc)
      else .absent }

/-- The administrator path holds an empty (null) document. -/
def envNullDoc : Env :=
  { envNoFiles with
    file := fun q =>
      if q = "/etc/calamares/modules/e.conf" then .readable (.ok .nullDoc)
      else .absent }

/-- The administrator path holds a file with a YAML syntax error. -/
def envParseErr : Env :=
  { envNoFiles with
    file := fun q =>
      if q = "/etc/calamares/modules/t.conf" then
        .readable (.error "yaml-cpp: error at line 1, column 2: end of map not found")
      else .absent }

/-- The administrator path exists but cannot be opened; the installed default
candidate behind it is readable. -/
def envUnreadable : Env :=
  { envNoFiles with
    file := fun q =>
      if q = "/etc/calamares/modules/u.conf" then .unreadable
      else if q = "/usr/share/calamares/modules/u.conf" then
        .readable (.ok (.mapDoc [("k", .intV 1)]))
      else .absent }

/-! ### Claims -/

/-- Claim C3: with no override root and debug mode off the candidate list is
exactly `/etc/calamares/modules/<file>` then `<appDataRoot>/modules/<file>`;
the outcome of resolution is fully determined by the first candidate that
exists and opens readably (later candidates are never consulted, even when
its parse fails); when no candidate exists resolution succeeds, leaving the
module — in particular its (initially empty) configuration map — untouched. -/
theorem c3_resolution_order (env : Env) (m : Module) (cf : String)
    (hov : env.appDataDirOverridden = false) (hdbg : env.debugMode = false) :
    configFilesByPriority env m.m_name cf
      = ["/etc/calamares/modules/" ++ cf,
         env.appDataDirPath ++ "/modules/" ++ cf] ∧
    loadConfigurationFile env m cf
      = resolveWinner m (firstHit env (configFilesByPriority env m.m_name cf)) ∧
    (firstHit env (configFilesByPriority env m.m_name cf) = none →
      loadConfigurationFile env m cf = .ok (m, [])) := by
  refine ⟨by simp [configFilesByPriority, hov, hdbg],
          loadFromPaths_eq_resolveWinner env m _, fun hn => ?_⟩
  unfold loadConfigurationFile
  rw [loadFromPaths_eq_resolveWinner, hn]
  rfl

/-- Witness for C3 at a concrete environment. -/
theorem c3_resolution_order_w :
    configFilesByPriority envEmg mA.m_name "f.conf"
      = ["/etc/calamares/modules/" ++ "f.conf",
         envEmg.appDataDirPath ++ "/modules/" ++ "f.conf"] ∧
    loadConfigurationFile envEmg mA "f.conf"
      = resolveWinner mA (firstHit envEmg (configFilesByPriority envEmg mA.m_name "f.conf")) ∧
    (firstHit envEmg (configFilesByPriority envEmg mA.m_name "f.conf") = none →
      loadConfigurationFile envEmg mA "f.conf" = .ok (mA, [])) :=
  c3_resolution_order envEmg mA "f.conf" rfl rfl

/-- Claim C4: a descriptor whose `type` or `interface` is missing or empty (as
a string) makes the build fail with the bad-descriptor error and no instance,
regardless of the variant table, the compile-time flags or the
environment. -/
theorem c4_invalid_descriptor (cfg : BuildConfig) (env : Env)
    (d : List (String × Value)) (iid cf md : String)
    (h : (mapValue d "type").toString = "" ∨
         (mapValue d "interface").toString = "") :
    fromDescriptor cfg env d iid cf md = .error (.invalidDescriptor iid) := by
  simp only [fromDescriptor]
  rw [if_pos h]

/-- Witness for C4: a descriptor with no `type` key. -/
theorem c4_invalid_descriptor_w :
    fromDescriptor ⟨true, true⟩ envNoFiles [("interface", Value.stringV "qtplugin")]
      "w4" "c.conf" "/mods/w4" = .error (.invalidDescriptor "w4") :=
  c4_invalid_descriptor ⟨true, true⟩ envNoFiles [("interface", Value.stringV "qtplugin")]
    "w4" "c.conf" "/mods/w4" (Or.inl rfl)

/-- Claim C7: when the application-data override root is active the resolver
builds exactly one candidate, `<overrideRoot>/modules/<configFileName>`, and
never the fallback list — for every environment, in particular whatever the
debug-mode flag is. -/
theorem c7_override_single_candidate (env : Env) (name cf : String)
    (h : env.appDataDirOverridden = true) :
    configFilesByPriority env name cf
      = [env.appDataDirPath ++ "/modules/" ++ cf] := by
  simp [configFilesByPriority, h]

/-- Witness for C7, with debug mode on. -/
theorem c7_override_single_candidate_w :
    configFilesByPriority envOverride "welcome" "w.conf"
      = [envOverride.appDataDirPath ++ "/modules/" ++ "w.conf"] :=
  c7_override_single_candidate envOverride "welcome" "w.conf" rfl

/-- Claim C9: whenever resolution does not end at a top-level-mapping document
(no candidate found, or the winning document is null or not a map),
`loadConfigurationFile` returns the module state unchanged — in particular the
emergency field and the configuration map keep their prior values, so a
descriptor-level emergency hint alone cannot set `emergency`. -/
theorem c9_soft_paths_frame (env : Env) (m : Module) (cf : String)
    (h : firstHit env (configFilesByPriority env m.m_name cf) = none
       ∨ (∃ p, firstHit env (configFilesByPriority env m.m_name cf)
            = some (p, .ok .nullDoc))
       ∨ (∃ p, firstHit env (configFilesByPriority env m.m_name cf)
            = some (p, .ok .nonMapDoc))) :
    Except.map Prod.fst (loadConfigurationFile env m cf) = .ok m := by
  unfold loadConfigurationFile
  rw [loadFromPaths_eq_resolveWinner]
  rcases h with h | ⟨p, h⟩ | ⟨p, h⟩ <;> rw [h] <;> rfl

/-- Witness for C9: a hinted module, no candidate file anywhere. -/
theorem c9_soft_paths_frame_w :
    Except.map Prod.fst
      (loadConfigurationFile envNoFiles { mA with m_maybe_emergency := true } "none.conf")
      = .ok { mA with m_maybe_emergency := true } :=
  c9_soft_paths_frame envNoFiles { mA with m_maybe_emergency := true } "none.conf"
    (Or.inl rfl)

/-- Claim C10: a candidate that does not exist, or exists but cannot be opened
for reading, is skipped and iteration continues with the remaining candidates;
a candidate that exists and opens readably stops the search and determines the
outcome. -/
theorem c10_unreadable_skipped (env : Env) (m : Module) (p : String)
    (rest : List String) (r : Except String YamlDoc) :
    (env.file p = .absent →
      loadFromPaths env m (p :: rest) = loadFromPaths env m rest) ∧
    (env.file p = .unreadable →
      loadFromPaths env m (p :: rest) = loadFromPaths env m rest) ∧
    (env.file p = .readable r →
      loadFromPaths env m (p :: rest) = resolveWinner m (some (p, r))) := by
  refine ⟨fun h => ?_, fun h => ?_, fun h => ?_⟩
  · conv_lhs => unfold loadFromPaths
    rw [h]
  · conv_lhs => unfold loadFromPaths
    rw [h]
  · unfold loadFromPaths
    rw [h]
    rcases r with e | doc
    · rfl
    · cases doc <;> rfl

/-- Witness for C10: the administrator candidate exists but is unreadable, so
the installed default candidate wins. -/
theorem c10_unreadable_skipped_w :
    (envUnreadable.file "/etc/calamares/modules/u.conf" = .absent →
      loadFromPaths envUnreadable mA
          ("/etc/calamares/modules/u.conf" :: ["/usr/share/calamares/modules/u.conf"])
        = loadFromPaths envUnreadable mA ["/usr/share/calamares/modules/u.conf"]) ∧
    (envUnreadable.file "/etc/calamares/modules/u.conf" = .unreadable →
      loadFromPaths envUnreadable mA
          ("/etc/calamares/modules/u.conf" :: ["/usr/share/calamares/modules/u.conf"])
        = loadFromPaths envUnreadable mA ["/usr/share/calamares/modules/u.conf"]) ∧
    (envUnreadable.file "/etc/calamares/modules/u.conf"
        = .readable (.ok (.mapDoc [("k", .intV 1)])) →
      loadFromPaths envUnreadable mA
          ("/etc/calamares/modules/u.conf" :: ["/usr/share/calamares/modules/u.conf"])
        = resolveWinner mA
            (some ("/etc/calamares/modules/u.conf", .ok (.mapDoc [("k", .intV 1)])))) :=
  c10_unreadable_skipped envUnreadable mA "/etc/calamares/modules/u.conf"
    ["/usr/share/calamares/modules/u.conf"] (.ok (.mapDoc [("k", .intV 1)]))

/-! ### Further witness fixtures -/

/-- Descriptor of a process job hinting emergency. -/
def dEmg : List (String × Value) :=
  [("type", .stringV "job"), ("interface", .stringV "process"),
   ("emergency", .boolV true)]

/-- The module built from `dEmg` under `envEmg`. -/
def mEmg : Module :=
  { variant := .processJobModule, m_instanceId := "i1", m_directory := "/mods/w",
    m_configurationMap := [("emergency", .boolV true)],
    m_maybe_emergency := true, m_emergency := true }

/-- Descriptor of a plain C++ job. -/
def dJob : List (String × Value) :=
  [("type", .stringV "job"), ("interface", .stringV "qtplugin")]

/-- Descriptor of a python job. -/
def dPy : List (String × Value) :=
  [("type", .stringV "job"), ("interface", .stringV "python")]

/-- Descriptor of a PythonQt view module. -/
def dPQ : List (String × Value) :=
  [("type", .stringV "view"), ("interface", .stringV "pythonqt")]

/-- For a build step whose starting module state has an empty configuration
map and a clear emergency flag, resolution derives the final emergency flag
from the starting hint and the final configuration map. -/
theorem loadConfigurationFile_emergency (env : Env) (m2 : Module) (cf : String)
    (m : Module) (w : List String)
    (hload : loadConfigurationFile env m2 cf = .ok (m, w))
    (hmap : m2.m_configurationMap = [])
    (hem : m2.m_emergency = false) :
    m.m_emergency
      = (m2.m_maybe_emergency
         && mapContains m.m_configurationMap "emergency"
         && (mapValue m.m_configurationMap "emergency").toBool) := by
  have h0 : m2.m_emergency
      = (m2.m_maybe_emergency
         && mapContains m2.m_configurationMap "emergency"
         && (mapValue m2.m_configurationMap "emergency").toBool) := by
    rw [hem, hmap]
    simp [mapContains]
  have hinv := loadFromPaths_emergencyInv env _ m2 m w hload h0
  have hframe := loadFromPaths_frame env _ m2 m w hload
  rw [hinv, hframe.2.2.2.2]

/-- Claim C1: for every build that returns an instance, the final emergency
flag is true if and only if the descriptor hinted emergency (truthy reserved
key `emergency`) and the resolved configuration map holds a truthy
`emergency` key; any other combination leaves it false. -/
theorem c1_emergency_derivation (cfg : BuildConfig) (env : Env)
    (d : List (String × Value)) (iid cf md : String) (m : Module)
    (h : fromDescriptor cfg env d iid cf md = .ok m) :
    m.m_emergency
      = (mapContains d "emergency" && (mapValue d "emergency").toBool
         && mapContains m.m_configurationMap "emergency"
         && (mapValue m.m_configurationMap "emergency").toBool) := by
  obtain ⟨hdir, v, w, hsel, hload⟩ := fromDescriptor_ok_elim cfg env d iid cf md m h
  have hres := loadConfigurationFile_emergency env _ cf m w hload
    (by rw [initFrom_m_configurationMap]; rfl) (by rw [initFrom_m_emergency]; rfl)
  rw [initFrom_m_maybe_emergency _ d rfl] at hres
  exact hres

/-- Witness for C1: both layers affirm emergency and the flag ends up true. -/
theorem c1_emergency_derivation_w :
    mEmg.m_emergency
      = (mapContains dEmg "emergency" && (mapValue dEmg "emergency").toBool
         && mapContains mEmg.m_configurationMap "emergency"
         && (mapValue mEmg.m_configurationMap "emergency").toBool) :=
  c1_emergency_derivation ⟨true, true⟩ envEmg dEmg "i1" "f.conf" "/mods/w" mEmg rfl

/-- Claim C8: every returned instance carries as `m_directory` the absolute
path of a module directory that existed and was readable; and when the
supplied directory fails that check (the earlier descriptor and variant checks
passing), the build fails with the bad-directory error and no instance. -/
theorem c8_directory_validation :
    (∀ (cfg : BuildConfig) (env : Env) (d : List (String × Value))
        (iid cf md : String) (m : Module),
      fromDescriptor cfg env d iid cf md = .ok m →
      env.dirExists md = true ∧ env.dirReadable md = true ∧
      m.m_directory = env.dirAbsolutePath md) ∧
    (∀ (cfg : BuildConfig) (env : Env) (d : List (String × Value))
        (iid cf md : String) (v : ModuleVariant),
      (mapValue d "type").toString ≠ "" →
      (mapValue d "interface").toString ≠ "" →
      selectVariant cfg ((mapValue d "type").toString)
        ((mapValue d "interface").toString) = some v →
      (env.dirExists md && env.dirReadable md) = false →
      fromDescriptor cfg env d iid cf md
        = .error (.invalidDirectory md iid)) := by
  constructor
  · intro cfg env d iid cf md m h
    obtain ⟨hdir, v, w, hsel, hload⟩ := fromDescriptor_ok_elim cfg env d iid cf md m h
    have hframe := loadFromPaths_frame env _ _ m w hload
    have hd : m.m_directory = env.dirAbsolutePath md := by
      rw [hframe.2.2.2.1, initFrom_m_directory]
    rw [Bool.and_eq_true] at hdir
    exact ⟨hdir.1, hdir.2, hd⟩
  · intro cfg env d iid cf md v hty hintf hsel hdir
    simp only [fromDescriptor, hsel]
    rw [if_neg (by simp [hty, hintf])]
    simp [hdir]

/-- Witness for C8: a successful build records the directory; a missing
directory aborts with the bad-directory error. -/
theorem c8_directory_validation_w :
    (envNoFiles.dirExists "/mods/k" = true ∧
     envNoFiles.dirReadable "/mods/k" = true ∧
     ({ variant := .cppJobModule, m_instanceId := "w8",
        m_directory := "/mods/k" : Module }).m_directory
       = envNoFiles.dirAbsolutePath "/mods/k") ∧
    fromDescriptor ⟨false, false⟩ envNoDir dJob "w8b" "c.conf" "/mods/k"
      = .error (.invalidDirectory "/mods/k" "w8b") :=
  ⟨c8_directory_validation.1 ⟨false, false⟩ envNoFiles dJob "w8" "c.conf" "/mods/k"
      { variant := .cppJobModule, m_instanceId := "w8", m_directory := "/mods/k" } rfl,
   c8_directory_validation.2 ⟨false, false⟩ envNoDir dJob "w8b" "c.conf" "/mods/k"
      .cppJobModule (by decide) (by decide) rfl rfl⟩

/-- Claim C6: a winning candidate whose document is not a top-level map is a
soft failure — resolution logs the bad-format warning naming the path and
returns with the module unchanged; a null (empty) document likewise returns
unchanged without a warning; in both cases a build reaching resolution still
succeeds and ends with an empty configuration map. -/
theorem c6_nonmap_soft (env : Env) (m : Module) (cf p : String) :
    (firstHit env (configFilesByPriority env m.m_name cf)
        = some (p, .ok .nonMapDoc) →
      loadConfigurationFile env m cf
        = .ok (m, ["Bad module configuration format " ++ p])) ∧
    (firstHit env (configFilesByPriority env m.m_name cf)
        = some (p, .ok .nullDoc) →
      loadConfigurationFile env m cf = .ok (m, [])) ∧
    (∀ (cfg : BuildConfig) (d : List (String × Value)) (iid md : String)
        (v : ModuleVariant),
      (mapValue d "type").toString ≠ "" →
      (mapValue d "interface").toString ≠ "" →
      selectVariant cfg ((mapValue d "type").toString)
        ((mapValue d "interface").toString) = some v →
      (env.dirExists md && env.dirReadable md) = true →
      (firstHit env (configFilesByPriority env ((mapValue d "name").toString) cf)
          = some (p, .ok .nonMapDoc) ∨
       firstHit env (configFilesByPriority env ((mapValue d "name").toString) cf)
          = some (p, .ok .nullDoc)) →
      fromDescriptor cfg env d iid cf md
          = .ok (initFrom { newModule v with
                            m_directory := env.dirAbsolutePath md,
                            m_instanceId := iid } d) ∧
      (initFrom { newModule v with
                  m_directory := env.dirAbsolutePath md,
                  m_instanceId := iid } d).m_configurationMap = []) := by
  refine ⟨fun h => ?_, fun h => ?_, ?_⟩
  · unfold loadConfigurationFile
    rw [loadFromPaths_eq_resolveWinner, h]
    rfl
  · unfold loadConfigurationFile
    rw [loadFromPaths_eq_resolveWinner, h]
    rfl
  · intro cfg d iid md v hty hintf hsel hdir hhit
    rw [fromDescriptor_steps cfg env d iid cf md v hty hintf hsel hdir]
    have hres : loadConfigurationFile env
        (initFrom { newModule v with
                    m_directory := env.dirAbsolutePath md,
                    m_instanceId := iid } d) cf
        = resolveWinner
            (initFrom { newModule v with
                        m_directory := env.dirAbsolutePath md,
                        m_instanceId := iid } d)
            (firstHit env
              (configFilesByPriority env ((mapValue d "name").toString) cf)) := by
      unfold loadConfigurationFile
      rw [initFrom_m_name]
      exact loadFromPaths_eq_resolveWinner env _ _
    rcases hhit with h | h <;> rw [hres, h] <;>
      exact ⟨rfl, initFrom_m_configurationMap _ d⟩

/-- Witness for C6 at concrete environments: a list-shaped document and an
empty document, at resolution level and through a full build. -/
theorem c6_nonmap_soft_w :
    (loadConfigurationFile envNonMap mA "n.conf"
      = .ok (mA, ["Bad module configuration format "
                   ++ "/etc/calamares/modules/n.conf"])) ∧
    (loadConfigurationFile envNullDoc mA "e.conf" = .ok (mA, [])) ∧
    (fromDescriptor ⟨false, false⟩ envNonMap dJob "w6" "n.conf" "/mods/k"
        = .ok (initFrom { newModule .cppJobModule with
                          m_directory := envNonMap.dirAbsolutePath "/mods/k",
                          m_instanceId := "w6" } dJob) ∧
     (initFrom { newModule .cppJobModule with
                 m_directory := envNonMap.dirAbsolutePath "/mods/k",
                 m_instanceId := "w6" } dJob).m_configurationMap = []) :=
  ⟨(c6_nonmap_soft envNonMap mA "n.conf" "/etc/calamares/modules/n.conf").1 rfl,
   (c6_nonmap_soft envNullDoc mA "e.conf" "/etc/calamares/modules/e.conf").2.1 rfl,
   (c6_nonmap_soft envNonMap mA "n.conf" "/etc/calamares/modules/n.conf").2.2
     ⟨false, false⟩ dJob "w6" "/mods/k" .cppJobModule
     (by decide) (by decide) rfl rfl (Or.inl rfl)⟩

/-- Counterexample to C5 as stated: the parse error propagated out of the
build is exactly the parser's own message, which was produced from the file
content alone and does not name the offending path. -/
theorem c5_counterexample :
    fromDescriptor ⟨false, false⟩ envParseErr dJob "pe" "t.conf" "/mods/pe"
      = .error (.yamlError
          "yaml-cpp: error at line 1, column 2: end of map not found") ∧
    strContains "yaml-cpp: error at line 1, column 2: end of map not found"
      "/etc/calamares/modules/t.conf" = false :=
  ⟨rfl, by decide⟩

/-- Claim C5 (amended): when the winning candidate fails to parse, the entire
build aborts and returns no instance — the already-allocated variant instance
is discarded — and the parser's error is propagated unchanged to the caller
(so it names the offending path only if the parser message itself does). -/
theorem c5_parse_error_aborts (cfg : BuildConfig) (env : Env)
    (d : List (String × Value)) (iid cf md p e : String) (v : ModuleVariant)
    (hty : (mapValue d "type").toString ≠ "")
    (hintf : (mapValue d "interface").toString ≠ "")
    (hsel : selectVariant cfg ((mapValue d "type").toString)
      ((mapValue d "interface").toString) = some v)
    (hdir : (env.dirExists md && env.dirReadable md) = true)
    (hhit : firstHit env
        (configFilesByPriority env ((mapValue d "name").toString) cf)
        = some (p, .error e)) :
    fromDescriptor cfg env d iid cf md = .error (.yamlError e) := by
  rw [fromDescriptor_steps cfg env d iid cf md v hty hintf hsel hdir]
  have hres : loadConfigurationFile env
      (initFrom { newModule v with
                  m_directory := env.dirAbsolutePath md,
                  m_instanceId := iid } d) cf
      = resolveWinner
          (initFrom { newModule v with
                      m_directory := env.dirAbsolutePath md,
                      m_instanceId := iid } d)
          (firstHit env
            (configFilesByPriority env ((mapValue d "name").toString) cf)) := by
    unfold loadConfigurationFile
    rw [initFrom_m_name]
    exact loadFromPaths_eq_resolveWinner env _ _
  rw [hres, hhit]
  rfl

/-- Witness for C5 (amended) at a concrete environment. -/
theorem c5_parse_error_aborts_w :
    fromDescriptor ⟨false, false⟩ envParseErr dJob "w5" "t.conf" "/mods/k"
      = .error (.yamlError
          "yaml-cpp: error at line 1, column 2: end of map not found") :=
  c5_parse_error_aborts ⟨false, false⟩ envParseErr dJob "w5" "t.conf" "/mods/k"
    "/etc/calamares/modules/t.conf"
    "yaml-cpp: error at line 1, column 2: end of map not found"
    .cppJobModule (by decide) (by decide) rfl rfl rfl

/-- Counterexample to C2 as stated: with PythonQt support compiled in, type
`view` with interface `pythonqt` — a pair outside the claim's success set —
does produce an instance instead of failing. -/
theorem c2_counterexample :
    fromDescriptor ⟨true, true⟩ envNoFiles dPQ "pq" "m.conf" "/mods/pq"
      = .ok { variant := .pythonQtViewModule, m_instanceId := "pq",
              m_directory := "/mods/pq" } := rfl

/-- Claim C2 (amended): variant selection is the exact-match two-axis table —
`view`/`viewmodule` × `qtplugin` gives the view-plugin module,
`view`/`viewmodule` × `pythonqt` gives the scripting-UI view module exactly
when PythonQt support is compiled in, `job` × `qtplugin`/`process`/`python`
gives the corresponding job module (python only when scripting support is
compiled in); every returned instance's variant agrees with the table, and
for non-empty type and interface strings outside the table the build fails
with the bad-module error and no instance. -/
theorem c2_variant_table :
    (∀ (cfg : BuildConfig) (ty intf : String),
      selectVariant cfg ty intf = specVariantTable cfg ty intf) ∧
    (∀ (cfg : BuildConfig) (env : Env) (d : List (String × Value))
        (iid cf md : String) (m : Module),
      fromDescriptor cfg env d iid cf md = .ok m →
      specVariantTable cfg ((mapValue d "type").toString)
        ((mapValue d "interface").toString) = some m.variant) ∧
    (∀ (cfg : BuildConfig) (env : Env) (d : List (String × Value))
        (iid cf md : String),
      (mapValue d "type").toString ≠ "" →
      (mapValue d "interface").toString ≠ "" →
      specVariantTable cfg ((mapValue d "type").toString)
        ((mapValue d "interface").toString) = none →
      fromDescriptor cfg env d iid cf md
        = .error (.invalidModule ((mapValue d "type").toString)
            ((mapValue d "interface").toString) iid)) := by
  have heq : ∀ (cfg : BuildConfig) (ty intf : String),
      selectVariant cfg ty intf = specVariantTable cfg ty intf := by
    intro cfg ty intf
    unfold selectVariant specVariantTable
    split_ifs <;> simp_all
  refine ⟨heq, ?_, ?_⟩
  · intro cfg env d iid cf md m h
    obtain ⟨hdir, v, w, hsel, hload⟩ := fromDescriptor_ok_elim cfg env d iid cf md m h
    have hframe := loadFromPaths_frame env _ _ m w hload
    have hv : m.variant = v := by
      rw [hframe.1, initFrom_variant]
      rfl
    rw [← heq, hsel, hv]
  · intro cfg env d iid cf md hty hintf hnone
    simp only [fromDescriptor]
    rw [if_neg (by simp [hty, hintf])]
    rw [heq, hnone]

/-- Witness for C2 (amended): the table agrees with the code ladder, the
PythonQt view build lands on the table row, and a compiled-out python job
fails with the bad-module error. -/
theorem c2_variant_table_w :
    selectVariant ⟨false, false⟩ "job" "python"
      = specVariantTable ⟨false, false⟩ "job" "python" ∧
    specVariantTable ⟨true, true⟩ ((mapValue dPQ "type").toString)
        ((mapValue dPQ "interface").toString)
      = some ({ variant := .pythonQtViewModule, m_instanceId := "pq2",
                m_directory := "/mods/pq2" : Module }).variant ∧
    fromDescriptor ⟨false, false⟩ envNoFiles dPy "wpy" "c.conf" "/mods/py"
      = .error (.invalidModule ((mapValue dPy "type").toString)
          ((mapValue dPy "interface").toString) "wpy") :=
  ⟨c2_variant_table.1 ⟨false, false⟩ "job" "python",
   c2_variant_table.2.1 ⟨true, true⟩ envNoFiles dPQ "pq2" "m.conf" "/mods/pq2"
     { variant := .pythonQtViewModule, m_instanceId := "pq2",
       m_directory := "/mods/pq2" } rfl,
   c2_variant_table.2.2 ⟨false, false⟩ envNoFiles dPy "wpy" "c.conf" "/mods/py"
     (by decide) (by decide) rfl⟩

end Calamares
